import Mathlib

/- Verification of the prism-artifact patch-repair system: the outcome model,
   the iterative repair loop (`CCAgent.act` in
   `src/packages/crete/framework/agent/services/cc/__init__.py`), the budget
   governor (`LlmCostTracker` in
   `src/packages/crete/framework/scheduler/tracker/llm_cost.py`), and the
   benchmark orchestrator (`src/scripts/eval/afc_benchmark.py`).

   Conventions of the embedding:
   * Python `bytes`/`str` values (diffs, prompts, messages) are Lean `String`s;
     `diff.decode(errors="replace")` is the identity on this representation.
   * Python `float` is embedded as exact `Rat`; Python `int` as `Int`.
   * Exceptions are `Except`/`Option` values: a function that may raise returns
     `Except String α` carrying the exception text, and a caught exception is
     the corresponding `.error`/`none` branch of the caller.
   * External collaborators absent from the sources (the LLM generator, the
     evaluator, `litellm.cost_per_token`, the patch verifiers) are parameters
     of the functions that call them. -/

namespace Crete

/-- Outcome variants of one patch evaluation, as named by the `variant`
strings dispatched in `scripts/eval/afc_benchmark.py` (`_run_crete_app`). -/
inductive Variant where
  | sound
  | compilable
  | uncompilable
  | vulnerable
  | wrong
  | no_patch
  | internal_tests_failure
  | unknown_error
  deriving DecidableEq, Repr

/-- Modelled from the spec: the severity order of the Outcome Model.
`crete.atoms.action` (which holds `choose_best_action`) is not among the
provided sources; the spec fixes the total order
`Sound > Compilable > Uncompilable > Vulnerable > Wrong > NoPatch` and keeps
`InternalTestsFailure`/`UnknownError` out of the ordering (they are ranked
below every ordered variant here). -/
def severity_rank : Variant → Nat
  | .sound => 6
  | .compilable => 5
  | .uncompilable => 4
  | .vulnerable => 3
  | .wrong => 2
  | .no_patch => 1
  | .internal_tests_failure => 0
  | .unknown_error => 0

/-- Actions returned by the evaluator / built by `CCAgent.act`, mirroring the
`Action` classes imported from `crete.atoms.action`: each non-`NoPatch`
evaluation action carries the diff that produced it. -/
inductive Action where
  | noPatchAction
  | vulnerableDiffAction (diff : String)
  | compilableDiffAction (diff : String)
  | uncompilableDiffAction (diff : String)
  | wrongDiffAction (diff : String)
  | soundDiffAction (diff : String)
  | internalTestsFailureAction (diff : String)
  | unknownErrorAction (msg : String)
  deriving DecidableEq, Repr

/-- The outcome variant of an action. -/
def Action.variant : Action → Variant
  | .noPatchAction => .no_patch
  | .vulnerableDiffAction _ => .vulnerable
  | .compilableDiffAction _ => .compilable
  | .uncompilableDiffAction _ => .uncompilable
  | .wrongDiffAction _ => .wrong
  | .soundDiffAction _ => .sound
  | .internalTestsFailureAction _ => .internal_tests_failure
  | .unknownErrorAction _ => .unknown_error

/-- Severity of an action under the Outcome Model's order. -/
def Action.severity (a : Action) : Nat := severity_rank a.variant

/-- The step function of `choose_best_action`: keep the strictly more severe
of the running best and the next action (so among equally severe actions the
earliest is kept). -/
def pick_best (best x : Action) : Action :=
  if best.severity < x.severity then x else best

/-- Modelled from the spec: `choose_best_action` (from `crete.atoms.action`,
absent from the provided sources) selects the best action of a sequence under
the fixed severity order; an empty sequence is an error (`none`). -/
def choose_best_action : List Action → Option Action
  | [] => none
  | a :: rest => some (rest.foldl pick_best a)

/-- LlmUsage (src/packages/crete/framework/scheduler/tracker/models.py):
token counts and derived monetary cost, with Python `float` embedded as
exact `Rat`. -/
structure LlmUsage where
  total_cost : Rat := 0
  prompt_tokens : Int := 0
  completion_tokens : Int := 0
  deriving DecidableEq, Repr

/-- `LlmUsage.__add__`: field-by-field sum. -/
def LlmUsage.add (a b : LlmUsage) : LlmUsage :=
  { total_cost := a.total_cost + b.total_cost
    prompt_tokens := a.prompt_tokens + b.prompt_tokens
    completion_tokens := a.completion_tokens + b.completion_tokens }

instance : Add LlmUsage := ⟨LlmUsage.add⟩

/-- The zero usage `LlmUsage()` (all dataclass defaults). -/
def LlmUsage.zero : LlmUsage := {}

/-- Token counts as carried in the `usage` field of a litellm
`ModelResponse`. -/
structure LiteUsageMeta where
  prompt_tokens : Int
  completion_tokens : Int
  deriving DecidableEq, Repr

/-- A generation response as seen by `LlmCostTracker._update_usage`: either a
streaming wrapper (not a `ModelResponse`) or a `ModelResponse` with a model
name and optional usage metadata (`none` models a response in which
`"usage" not in response`). -/
inductive LlmResponse where
  | stream_wrapper
  | model_response (model : String) (usage : Option LiteUsageMeta)
  deriving DecidableEq, Repr

/-- The type of `litellm.cost_per_token` seen by `_litellm_cost_from_usage`:
model name, prompt tokens, completion tokens to (prompt cost, completion
cost). External to the sources, hence a parameter. -/
def CostPerToken : Type := String → Int → Int → Rat × Rat

/-- `_litellm_cost_from_usage`: the sum of the per-token prompt and completion
costs returned by `litellm.cost_per_token`. -/
def litellm_cost_from_usage (cpt : CostPerToken) (model : String) (usage : LlmUsage) : Rat :=
  (cpt model usage.prompt_tokens usage.completion_tokens).1 +
    (cpt model usage.prompt_tokens usage.completion_tokens).2

/-- `_litellm_usage_from_response`: raises (`none`) when the response carries
no usage metadata, otherwise builds an `LlmUsage` whose cost is derived via
`_litellm_cost_from_usage`. -/
def litellm_usage_from_response (cpt : CostPerToken) : LlmResponse → Option LlmUsage
  | .stream_wrapper => none
  | .model_response _ none => none
  | .model_response model (some meta) =>
      some { total_cost :=
               litellm_cost_from_usage cpt model
                 { total_cost := 0
                   prompt_tokens := meta.prompt_tokens
                   completion_tokens := meta.completion_tokens }
             prompt_tokens := meta.prompt_tokens
             completion_tokens := meta.completion_tokens }

/-- State of `LlmCostTracker`
(src/packages/crete/framework/scheduler/tracker/llm_cost.py). -/
structure LlmCostTracker where
  max_cost : Rat
  total_usage : LlmUsage := {}
  current_usage : LlmUsage := {}
  block_llm : Bool := false
  deriving DecidableEq, Repr

/-- `LlmCostTracker.is_exhausted`: cumulative cost has reached the ceiling
(`self._total_usage.total_cost >= self._max_cost`). -/
def LlmCostTracker.is_exhausted (t : LlmCostTracker) : Bool :=
  decide (t.max_cost ≤ t.total_usage.total_cost)

/-- `LlmCostTracker._update_usage`: a non-`ModelResponse` is ignored; a
response without usage metadata makes `_litellm_usage_from_response` raise,
the exception is caught and the tracker is left unchanged; otherwise the
response's usage becomes the current (most recent) usage and is added to the
total. -/
def LlmCostTracker.update_usage (cpt : CostPerToken) (t : LlmCostTracker)
    (r : LlmResponse) : LlmCostTracker :=
  match litellm_usage_from_response cpt r with
  | none => t
  | some usage =>
      { t with current_usage := usage, total_usage := t.total_usage + usage }

/-- Errors that can escape `LlmCostTracker._tracking_completion`: the
distinguished budget-limit exception it raises itself, or an exception
propagated from the wrapped completion call. -/
inductive TrackingError where
  | budget_exceeded
  | completion_error (msg : String)
  deriving DecidableEq, Repr

/-- `LlmCostTracker._tracking_completion`: when blocking is enabled and the
budget is exhausted, raise the distinguished budget error before the wrapped
completion function is consulted; otherwise run the wrapped completion
(`underlying`, a parameter since `litellm.completion` is external) and record
its usage. -/
def LlmCostTracker.tracking_completion (cpt : CostPerToken) (t : LlmCostTracker)
    (underlying : Except String LlmResponse) :
    Except TrackingError (LlmResponse × LlmCostTracker) :=
  if t.block_llm && t.is_exhausted then
    .error .budget_exceeded
  else
    match underlying with
    | .error msg => .error (.completion_error msg)
    | .ok r => .ok (r, t.update_usage cpt r)

/-- Python `str.strip()` / `bytes.strip()` on the embedded text: drop leading
and trailing whitespace characters. -/
def py_strip (s : String) : String :=
  String.mk (((s.data.dropWhile Char.isWhitespace).reverse.dropWhile Char.isWhitespace).reverse)

/-- The guard `diff is None or len(diff.strip()) == 0` of `CCAgent.act`. -/
def diff_is_empty : Option String → Bool
  | none => true
  | some d => (py_strip d).length == 0

/-- The text the agent renders for a diff:
`diff.decode(errors="replace") if diff is not None else ""`. -/
def diff_text : Option String → String
  | none => ""
  | some d => d

/-- `CC_USER_PROMPT_TEMPLATE` after `inspect.cleandoc(...).lstrip()`, with the
`{bug_class}` and `{insights}` holes filled by `str.format`. -/
def cc_user_prompt_template (bug_class insights : String) : String :=
  "Create a patch to fix a " ++ bug_class ++
    " bug given below and apply it to the code.\nNEVER fix files outside the source directory.\nNEVER do any git operations in or outside the source directory.\n\n" ++
    insights

/-- `CC_USER_PROMPT_TEMPLATE_WITH_FEEDBACK` after `inspect.cleandoc(...).lstrip()`,
with the `{bug_class}`, `{failed_patch}` and `{insights}` holes filled. -/
def cc_user_prompt_template_with_feedback (bug_class insights failed_patch : String) : String :=
  "I tried to fix a " ++ bug_class ++
    " vulnerability causing the crash log in the <crash_log> below.\nI failed to fix the vulnerability with the following patches:\n\n" ++
    failed_patch ++
    "\n\nExplain why the patches failed and provide a new patch to fix the vulnerability.\nDo not repeat the same mistakes in the new patch.\nTry a completely different approach to fix the vulnerability.\nNEVER fix files outside the source directory.\nNEVER do any git operations in or outside the source directory.\n\n" ++
    insights

/-- `FAILED_PATCH_TEMPLATE` after `inspect.cleandoc` (which also removes the
trailing blank lines of the literal), with the `{failed_patch}` hole filled. -/
def failed_patch_template (failed_patch : String) : String :=
  "```diff\n" ++ failed_patch ++ "\n```"

/-- `make_prompt` (agent/services/cc/__init__.py): `bug_class` and `insights`
are the results of the external `get_bug_class` / `CrashLogInsighter` calls
(already rendered through `DEFAULT_INSIGHTS_TEMPLATE`, or `""` when no crash
log could be produced), hence parameters here; with an empty feedback buffer
the plain template is used, otherwise the feedback template. -/
def make_prompt (bug_class insights failed_patches : String) : String :=
  if failed_patches = "" then
    cc_user_prompt_template bug_class insights
  else
    cc_user_prompt_template_with_feedback bug_class insights failed_patches

/-- The `isinstance(action, (VulnerableDiffAction, CompilableDiffAction,
UncompilableDiffAction, WrongDiffAction))` test of `CCAgent.act`: the actions
whose diff is fed back and after which the loop retries. -/
def is_retry_action : Action → Bool
  | .vulnerableDiffAction _ => true
  | .compilableDiffAction _ => true
  | .uncompilableDiffAction _ => true
  | .wrongDiffAction _ => true
  | _ => false

/-- One attempt of the repair loop as recorded by the embedding: the prompt
passed to the coder, the diff the coder returned, the attempt's action, and
whether the evaluator was invoked for it. -/
structure LoopStep where
  prompt : String
  diff : Option String
  action : Action
  evaluated : Bool
  deriving DecidableEq, Repr

/-- The `for context in _iterate_with_output_directory(...)` loop body of
`CCAgent.act`, unfolded from iteration `i` with remaining budget `fuel` and
accumulated feedback buffer `failed_patches`. `gen i prompt` is the result of
`coder.run` at iteration `i` (`none`: no diff, including a caught generation
exception); `ev i diff` is `context["evaluator"].evaluate` at iteration `i`.
An empty diff short-circuits to `NoPatchAction` without evaluating; a retry
action appends `FAILED_PATCH_TEMPLATE.format(...)` to the feedback buffer and
continues; any other action breaks the loop. -/
def act_loop (gen : Nat → String → Option String) (ev : Nat → String → Action)
    (bug_class insights : String) : Nat → Nat → String → List LoopStep
  | 0, _, _ => []
  | fuel + 1, i, failed_patches =>
      let prompt := make_prompt bug_class insights failed_patches
      let diff := gen i prompt
      let action :=
        if diff_is_empty diff then Action.noPatchAction else ev i (diff_text diff)
      let step : LoopStep := ⟨prompt, diff, action, !diff_is_empty diff⟩
      if is_retry_action action then
        step ::
          act_loop gen ev bug_class insights fuel (i + 1)
            (failed_patches ++ failed_patch_template (diff_text diff))
      else
        [step]

/-- The attempt trace of one `CCAgent.act` call with retry ceiling
`max_iterations`, started with an empty feedback buffer at iteration 0. -/
def ccagent_attempts (gen : Nat → String → Option String) (ev : Nat → String → Action)
    (bug_class insights : String) (max_iterations : Nat) : List LoopStep :=
  act_loop gen ev bug_class insights max_iterations 0 ""

/-- The single action `CCAgent.act` yields:
`choose_best_action(actions)` over all attempts' actions. -/
def ccagent_act (gen : Nat → String → Option String) (ev : Nat → String → Action)
    (bug_class insights : String) (max_iterations : Nat) : Option Action :=
  choose_best_action
    ((ccagent_attempts gen ev bug_class insights max_iterations).map LoopStep.action)

/-- `CCCoder.run` / `CCCoder._run_agent_async`
(src/packages/crete/framework/coder/services/cc/__init__.py): the agent run is
wrapped in `try/except`; an exception is caught, logged, and turned into
`None` (no diff); a successful run yields the git diff of the working tree. -/
def cc_coder_run (agent_run : Except String String) : Option String :=
  match agent_run with
  | .error _ => none
  | .ok diff => some diff

/-- One cell's benchmark record (`scripts.benchmark.models.BenchmarkResult`,
whose fields are fixed by their construction sites in
`scripts/eval/afc_benchmark.py`). -/
structure BenchmarkResult where
  cpv_name : String
  variant : Variant
  message : String := ""
  elapsed_time : Int := 0
  llm_cost : Rat := 0
  deriving DecidableEq, Repr

/-- Modelled from the spec: `BenchmarkResult.is_worse_than` lives in
`scripts.benchmark.models`, which is not among the provided sources; the spec
compares results under the Outcome Model's severity ordering, so a result is
worse than another when its variant ranks strictly lower. -/
def BenchmarkResult.is_worse_than (a b : BenchmarkResult) : Bool :=
  decide (severity_rank a.variant < severity_rank b.variant)

/-- The keep-best-result branch of `run` in `scripts/eval/afc_benchmark.py`
(lines 225-234): with a previously stored result, the new run replaces it
(its artifacts are copied over the cell, flag `true`) exactly when
`not result.is_worse_than(prev_result)`; otherwise the stored result stands
and the new run's artifacts are discarded (flag `false`). -/
def keep_best_step (prev_result new_result : BenchmarkResult) : BenchmarkResult × Bool :=
  if !new_result.is_worse_than prev_result then
    (new_result, true)
  else
    (prev_result, false)

/-- A result as returned to the orchestrator by the child app
(`crete.atoms.report`: `DiffResult` / `ErrorResult` / `NoPatchResult`), with
the fields `_run_single_benchmark` reads: the variant, and the cumulative
`llm_usage.total_cost`. -/
inductive CreteResult where
  | diff_result (variant : Variant) (diff : String) (total_cost : Rat)
  | error_result (error : String) (total_cost : Rat)
  | no_patch_result (total_cost : Rat)
  deriving DecidableEq, Repr

/-- The variant of a child result. -/
def CreteResult.variant : CreteResult → Variant
  | .diff_result v _ _ => v
  | .error_result _ _ => .unknown_error
  | .no_patch_result _ => .no_patch

/-- The `llm_usage.total_cost` of a child result. -/
def CreteResult.total_cost : CreteResult → Rat
  | .diff_result _ _ c => c
  | .error_result _ c => c
  | .no_patch_result c => c

/-- The `_crete_return.json` document a finished child process leaves behind,
as read by `_run_crete_app`: a raw `variant` string plus the payload fields. -/
structure ResultDoc where
  variant : String
  diff : String := ""
  error : String := ""
  total_cost : Rat := 0
  deriving DecidableEq, Repr

/-- The observable fate of one child job of `_run_crete_app`: the
`subprocess.run` call raises on timeout (`TimeoutExpired`) and on a non-zero
exit (`check=True` raises `CalledProcessError`) — both carry their diagnostic
text; a completed child leaves a result document that parses (`.ok doc`) or
does not (`.error`, carrying the `json` exception text). -/
inductive ChildRun where
  | timeout (diag : String)
  | nonzero_exit (diag : String)
  | completed (doc : Except String ResultDoc)
  deriving Repr

/-- The variant strings `_run_crete_app` accepts as a `DiffResult`. -/
def diff_result_variants : List String :=
  ["sound", "vulnerable", "compilable", "uncompilable", "wrong", "internal_tests_failure"]

/-- The tag for a `DiffResult` variant string (only consulted under the
membership guard of `run_crete_app`). -/
def variant_of_string : String → Variant
  | "sound" => .sound
  | "vulnerable" => .vulnerable
  | "compilable" => .compilable
  | "uncompilable" => .uncompilable
  | "wrong" => .wrong
  | "internal_tests_failure" => .internal_tests_failure
  | "no_patch" => .no_patch
  | _ => .unknown_error

/-- `_run_crete_app`: a raising child run or unparseable result document makes
the function raise (it re-raises after printing the traceback); a parsed
document is dispatched on its `variant` string, an unrecognised string raising
`ValueError("Unknown variant: ...")`. -/
def run_crete_app : ChildRun → Except String CreteResult
  | .timeout diag => .error diag
  | .nonzero_exit diag => .error diag
  | .completed (.error e) => .error e
  | .completed (.ok doc) =>
      if doc.variant ∈ diff_result_variants then
        .ok (.diff_result (variant_of_string doc.variant) doc.diff doc.total_cost)
      else if doc.variant = "unknown_error" then
        .ok (.error_result doc.error doc.total_cost)
      else if doc.variant = "no_patch" then
        .ok (.no_patch_result doc.total_cost)
      else
        .error ("Unknown variant: " ++ doc.variant)

/-- `BenchmarkResult.from_crete_result` as used on the success path of
`_run_single_benchmark`: the cell name, the (possibly re-verified) result's
variant, the elapsed time, and the cost recorded from the first child
result. -/
def benchmark_result_from_crete (cpv_name : String) (r : CreteResult)
    (elapsed_time : Int) (llm_cost : Rat) : BenchmarkResult :=
  { cpv_name := cpv_name
    variant := r.variant
    elapsed_time := elapsed_time
    llm_cost := llm_cost }

/-- `_run_single_benchmark`: the whole body is one `try`; any exception — from
the child run or from the post-verification of a sound result — is caught and
recorded as an `unknown_error` result carrying `str(e)` as its message, so
every cell yields exactly one `BenchmarkResult`. `post_verify` stands for the
external sarif / PatchChecker re-verification applied to a `sound` result
(`verify_patch_with_crete` / `verify_patch_with_patch_checker`, which are not
part of the sources); `llm_cost` is `0.0` until the child result is obtained
and its `llm_usage.total_cost` thereafter. -/
def run_single_benchmark (cpv_name : String) (elapsed_time : Int)
    (post_verify : CreteResult → Except String CreteResult)
    (child : ChildRun) : BenchmarkResult :=
  match run_crete_app child with
  | .error e =>
      { cpv_name := cpv_name
        variant := .unknown_error
        message := e
        elapsed_time := elapsed_time
        llm_cost := 0 }
  | .ok r =>
      match if r.variant = Variant.sound then post_verify r else .ok r with
      | .error e =>
          { cpv_name := cpv_name
            variant := .unknown_error
            message := e
            elapsed_time := elapsed_time
            llm_cost := r.total_cost }
      | .ok r2 => benchmark_result_from_crete cpv_name r2 elapsed_time r.total_cost

/-- An `AgentContext` as a mutable string-keyed dictionary; values (paths,
etc.) are embedded as strings. -/
def AgentContext : Type := String → Option String

/-- `context[k] = v`. -/
def ctx_set (ctx : AgentContext) (k v : String) : AgentContext :=
  fun q => if q = k then some v else ctx q

/-- `context.pop(k, None)`. -/
def ctx_pop (ctx : AgentContext) (k : String) : AgentContext :=
  fun q => if q = k then none else ctx q

/-- `output_directory / f"iter_{i}"`. -/
def iter_dir (output_directory : String) (i : Nat) : String :=
  output_directory ++ "/iter_" ++ Nat.repr i

/-- The context state while `_iterate_with_output_directory` is suspended at
its `i`-th `yield` (all mutations of iterations `0..i` applied): each
iteration overwrites only the `"output_directory"` entry, and only when an
output directory was configured. -/
def ctx_during (ctx : AgentContext) (output_directory : Option String) : Nat → AgentContext
  | 0 =>
      match output_directory with
      | some d => ctx_set ctx "output_directory" (iter_dir d 0)
      | none => ctx
  | i + 1 =>
      match output_directory with
      | some d => ctx_set (ctx_during ctx output_directory i) "output_directory" (iter_dir d (i + 1))
      | none => ctx_during ctx output_directory i

/-- The `finally` block of `_iterate_with_output_directory`: restore the
original `"output_directory"` entry, or pop it if it was absent. -/
def ctx_finalize (ctx : AgentContext) (original_output_directory : Option String) : AgentContext :=
  match original_output_directory with
  | some p => ctx_set ctx "output_directory" p
  | none => ctx_pop ctx "output_directory"

/-- The context after a run of `_iterate_with_output_directory` that consumed
`k` iterations and was then exhausted or closed: the `finally` block runs on
the state left by the last yield (or on the untouched context when no
iteration ran), with the original entry captured by
`context.get("output_directory", None)` at generator start. -/
def ctx_after_run (ctx : AgentContext) (output_directory : Option String) (k : Nat) : AgentContext :=
  match k with
  | 0 => ctx_finalize ctx (ctx "output_directory")
  | j + 1 => ctx_finalize (ctx_during ctx output_directory j) (ctx "output_directory")

/- ------------------------------------------------------------------ -/
/- Helper lemmas                                                      -/
/- ------------------------------------------------------------------ -/

theorem LlmUsage.add_def (a b : LlmUsage) :
    a + b =
      { total_cost := a.total_cost + b.total_cost
        prompt_tokens := a.prompt_tokens + b.prompt_tokens
        completion_tokens := a.completion_tokens + b.completion_tokens } := rfl

/- ------------------------------------------------------------------ -/
/- Claim theorems                                                     -/
/- ------------------------------------------------------------------ -/

/-- C5: merging `LlmUsage` values (`LlmUsage.__add__`) is associative and
commutative, merging with the zero usage (all fields 0) is the identity on
either side, and a merge sums every field (`total_cost`, `prompt_tokens`,
`completion_tokens`). -/
theorem llm_usage_merge_spec :
    (∀ a b c : LlmUsage, a + b + c = a + (b + c)) ∧
    (∀ a b : LlmUsage, a + b = b + a) ∧
    (∀ a : LlmUsage, a + LlmUsage.zero = a ∧ LlmUsage.zero + a = a) ∧
    (∀ a b : LlmUsage,
      (a + b).total_cost = a.total_cost + b.total_cost ∧
      (a + b).prompt_tokens = a.prompt_tokens + b.prompt_tokens ∧
      (a + b).completion_tokens = a.completion_tokens + b.completion_tokens) := by
  refine ⟨?_, ?_, ?_, ?_⟩
  · intro a b c
    simp [LlmUsage.add_def, add_assoc]
  · intro a b
    simp [LlmUsage.add_def, add_comm]
  · intro a
    constructor <;> simp [LlmUsage.add_def, LlmUsage.zero]
  · intro a b
    exact ⟨rfl, rfl, rfl⟩

/-- C6: with blocking mode enabled and the budget exhausted —
`is_exhausted` holds exactly when the cumulative `total_cost` has reached the
configured ceiling `max_cost` — `_tracking_completion` fails with the
distinguished budget-exceeded error no matter what the wrapped completion
call would return (so the underlying call is never consulted), and that error
is distinct from an ordinary completion failure. -/
theorem tracking_completion_budget_block (cpt : CostPerToken) (t : LlmCostTracker)
    (hb : t.block_llm = true) (he : t.is_exhausted = true) :
    (∀ underlying, t.tracking_completion cpt underlying = .error .budget_exceeded) ∧
    t.max_cost ≤ t.total_usage.total_cost ∧
    (∀ msg, TrackingError.budget_exceeded ≠ TrackingError.completion_error msg) := by
  refine ⟨?_, ?_, ?_⟩
  · intro underlying
    simp [LlmCostTracker.tracking_completion, hb, he]
  · exact of_decide_eq_true he
  · intro msg h
    exact TrackingError.noConfusion h

/-- A tracker mid-task: some cost already accumulated, and the most recent
call's delta on record. -/
def tracker_with_history : LlmCostTracker :=
  { max_cost := 10
    total_usage := { total_cost := 3, prompt_tokens := 10, completion_tokens := 5 }
    current_usage := { total_cost := 3, prompt_tokens := 10, completion_tokens := 5 }
    block_llm := false }

/-- A concrete trivial `litellm.cost_per_token`. -/
def cpt_zero : CostPerToken := fun _ _ _ => (0, 0)

/-- C6 witness: a blocking tracker whose cost (5) reached its ceiling (5)
rejects a completion call with the budget error. -/
theorem tracking_completion_budget_block_witness :
    LlmCostTracker.tracking_completion cpt_zero
      { max_cost := 5
        total_usage := { total_cost := 5, prompt_tokens := 1, completion_tokens := 1 }
        current_usage := {}
        block_llm := true }
      (.ok .stream_wrapper) = .error .budget_exceeded :=
  (tracking_completion_budget_block cpt_zero
    { max_cost := 5
      total_usage := { total_cost := 5, prompt_tokens := 1, completion_tokens := 1 }
      current_usage := {}
      block_llm := true }
    (by decide) (by decide)).1 (.ok .stream_wrapper)

/-- C7 counterexample: for a tracker that already recorded a non-zero delta
from an earlier call, a response lacking usage metadata leaves the cumulative
total unchanged (as claimed) but leaves the exposed most-recent-call delta at
its previous non-zero value — it is not reset to zero, refuting the claim
that the delta is zero after such a response. -/
theorem update_usage_delta_counterexample :
    (LlmCostTracker.update_usage cpt_zero tracker_with_history
      (.model_response "gpt" none)).total_usage = tracker_with_history.total_usage ∧
    (LlmCostTracker.update_usage cpt_zero tracker_with_history
      (.model_response "gpt" none)).current_usage ≠ LlmUsage.zero := by
  exact ⟨rfl, by decide⟩

/-- C7 (amended): usage accounting never raises; a non-`ModelResponse` or a
response lacking usage metadata is treated as a zero-cost delta in the sense
that the tracker is left entirely unchanged — cumulative total unchanged and
the most-recent-call delta retaining its previous value (not reset to zero) —
while a response carrying usage metadata adds exactly that usage to the total
and becomes the new most-recent delta. -/
theorem update_usage_missing_metadata (cpt : CostPerToken) (t : LlmCostTracker)
    (m : String) (meta : LiteUsageMeta) :
    t.update_usage cpt .stream_wrapper = t ∧
    t.update_usage cpt (.model_response m none) = t ∧
    (t.update_usage cpt (.model_response m (some meta))).total_usage
      = t.total_usage +
        { total_cost :=
            litellm_cost_from_usage cpt m
              { total_cost := 0
                prompt_tokens := meta.prompt_tokens
                completion_tokens := meta.completion_tokens }
          prompt_tokens := meta.prompt_tokens
          completion_tokens := meta.completion_tokens } ∧
    (t.update_usage cpt (.model_response m (some meta))).current_usage
      = { total_cost :=
            litellm_cost_from_usage cpt m
              { total_cost := 0
                prompt_tokens := meta.prompt_tokens
                completion_tokens := meta.completion_tokens }
          prompt_tokens := meta.prompt_tokens
          completion_tokens := meta.completion_tokens } :=
  ⟨rfl, rfl, rfl, rfl⟩

theorem pick_best_cases (a x : Action) : pick_best a x = a ∨ pick_best a x = x := by
  unfold pick_best
  by_cases hc : a.severity < x.severity <;> simp [hc]

theorem le_pick_best_left (a x : Action) : a.severity ≤ (pick_best a x).severity := by
  unfold pick_best
  by_cases hc : a.severity < x.severity
  · simp only [hc, if_true]
    omega
  · simp [hc]

theorem le_pick_best_right (a x : Action) : x.severity ≤ (pick_best a x).severity := by
  unfold pick_best
  by_cases hc : a.severity < x.severity
  · simp [hc]
  · simp only [hc, if_false]
    omega

theorem best_fold_mem (l : List Action) : ∀ a : Action,
    l.foldl pick_best a = a ∨ l.foldl pick_best a ∈ l := by
  induction l with
  | nil => intro a; left; rfl
  | cons x xs ih =>
      intro a
      have hfold : (x :: xs).foldl pick_best a = xs.foldl pick_best (pick_best a x) := rfl
      rw [hfold]
      rcases ih (pick_best a x) with h | h
      · rcases pick_best_cases a x with hp | hp
        · left; rw [h, hp]
        · right; rw [h, hp]; exact List.mem_cons_self x xs
      · right; exact List.mem_cons_of_mem x h

theorem best_fold_ge (l : List Action) : ∀ a : Action,
    a.severity ≤ (l.foldl pick_best a).severity ∧
      ∀ b ∈ l, b.severity ≤ (l.foldl pick_best a).severity := by
  induction l with
  | nil =>
      intro a
      exact ⟨le_refl _, by intro b hb; exact absurd hb (List.not_mem_nil b)⟩
  | cons x xs ih =>
      intro a
      have hfold : (x :: xs).foldl pick_best a = xs.foldl pick_best (pick_best a x) := rfl
      obtain ⟨h1, h2⟩ := ih (pick_best a x)
      refine ⟨?_, ?_⟩
      · rw [hfold]
        exact le_trans (le_pick_best_left a x) h1
      · intro b hb
        rw [hfold]
        rcases List.mem_cons.mp hb with hbx | hbxs
        · subst hbx
          exact le_trans (le_pick_best_right a b) h1
        · exact h2 b hbxs

/-- C1: `choose_best_action` on a non-empty action sequence returns an element
of the sequence of maximal severity under the fixed order
`Sound > Compilable > Uncompilable > Vulnerable > Wrong > NoPatch` (pinned
explicitly by the rank chain below); it is the identity on a singleton
sequence; and the single action `CCAgent.act` yields is `choose_best_action`
over all attempts' actions of the task, not merely the last attempt's. -/
theorem choose_best_action_max :
    (∀ l : List Action, l ≠ [] →
      ∃ a, choose_best_action l = some a ∧ a ∈ l ∧ ∀ b ∈ l, b.severity ≤ a.severity) ∧
    (∀ a : Action, choose_best_action [a] = some a) ∧
    (severity_rank .sound > severity_rank .compilable ∧
      severity_rank .compilable > severity_rank .uncompilable ∧
      severity_rank .uncompilable > severity_rank .vulnerable ∧
      severity_rank .vulnerable > severity_rank .wrong ∧
      severity_rank .wrong > severity_rank .no_patch) ∧
    (∀ gen ev bug_class insights max_iterations,
      ccagent_act gen ev bug_class insights max_iterations =
        choose_best_action
          ((ccagent_attempts gen ev bug_class insights max_iterations).map LoopStep.action)) := by
  refine ⟨?_, ?_, by decide, fun _ _ _ _ _ => rfl⟩
  · intro l hl
    match l with
    | [] => exact absurd rfl hl
    | a :: rest =>
        obtain ⟨h1, h2⟩ := best_fold_ge rest a
        refine ⟨rest.foldl pick_best a, rfl, ?_, ?_⟩
        · rcases best_fold_mem rest a with h | h
          · rw [h]; exact List.mem_cons_self a rest
          · exact List.mem_cons_of_mem a h
        · intro b hb
          rcases List.mem_cons.mp hb with hba | hbr
          · subst hba; exact h1
          · exact h2 b hbr
  · intro a
    simp [choose_best_action, List.foldl]

/-- C1 witness: on the concrete sequence `[Wrong, Compilable, Vulnerable]`,
`choose_best_action` returns a member of maximal severity (it is
`Compilable`). -/
theorem choose_best_action_max_witness :
    (∃ a, choose_best_action
        [Action.wrongDiffAction "d1", Action.compilableDiffAction "d2",
          Action.vulnerableDiffAction "d3"] = some a ∧
      a ∈ [Action.wrongDiffAction "d1", Action.compilableDiffAction "d2",
          Action.vulnerableDiffAction "d3"] ∧
      ∀ b ∈ [Action.wrongDiffAction "d1", Action.compilableDiffAction "d2",
          Action.vulnerableDiffAction "d3"], b.severity ≤ a.severity) :=
  choose_best_action_max.1
    [Action.wrongDiffAction "d1", Action.compilableDiffAction "d2",
      Action.vulnerableDiffAction "d3"] (by decide)

/-- C8: under the keep-best-result policy (the `keep_best_result` branch of
`run`), the new run's result replaces the stored one exactly when it is not
worse under the Outcome Model's severity ordering — ties keep the new run —
and otherwise the stored result is retained and the new run's artifacts are
discarded (flag `false`); concretely, a new `Compilable` replaces a stored
`Wrong`, and a stored `Sound` is retained against a new `Wrong`. -/
theorem keep_best_step_spec :
    (∀ prev_result new_result : BenchmarkResult,
      (keep_best_step prev_result new_result = (new_result, true) ↔
        severity_rank prev_result.variant ≤ severity_rank new_result.variant) ∧
      (keep_best_step prev_result new_result = (prev_result, false) ↔
        severity_rank new_result.variant < severity_rank prev_result.variant)) ∧
    keep_best_step { cpv_name := "cpv", variant := .wrong }
        { cpv_name := "cpv", variant := .compilable }
      = ({ cpv_name := "cpv", variant := .compilable }, true) ∧
    keep_best_step { cpv_name := "cpv", variant := .sound }
        { cpv_name := "cpv", variant := .wrong }
      = ({ cpv_name := "cpv", variant := .sound }, false) := by
  refine ⟨?_, by decide, by decide⟩
  intro prev_result new_result
  by_cases h : severity_rank new_result.variant < severity_rank prev_result.variant
  · have hb : new_result.is_worse_than prev_result = true := by
      simp [BenchmarkResult.is_worse_than, h]
    constructor
    · simp only [keep_best_step, hb, Bool.not_true, Bool.false_eq_true, if_false]
      simp [Prod.ext_iff]
      omega
    · simp [keep_best_step, hb, h]
  · have hb : new_result.is_worse_than prev_result = false := by
      simp [BenchmarkResult.is_worse_than, h]
    constructor
    · simp [keep_best_step, hb]
      omega
    · simp [keep_best_step, hb, Prod.ext_iff]
      omega

/-- C9: every benchmark cell whose child job times out, exits non-zero, or
leaves an unparseable result document is recorded as a `BenchmarkResult` with
variant `unknown_error` carrying the captured diagnostic text as its message
(and the zero cost accumulated before the failure); and every cell that is
run yields exactly one `BenchmarkResult`, for that cell, whatever the child
did — no crash propagates and no cell is dropped. -/
theorem run_single_benchmark_spec :
    (∀ (cpv_name : String) (elapsed_time : Int)
        (post_verify : CreteResult → Except String CreteResult) (diag : String),
      run_single_benchmark cpv_name elapsed_time post_verify (.timeout diag)
        = { cpv_name := cpv_name, variant := .unknown_error, message := diag,
            elapsed_time := elapsed_time, llm_cost := 0 } ∧
      run_single_benchmark cpv_name elapsed_time post_verify (.nonzero_exit diag)
        = { cpv_name := cpv_name, variant := .unknown_error, message := diag,
            elapsed_time := elapsed_time, llm_cost := 0 } ∧
      run_single_benchmark cpv_name elapsed_time post_verify (.completed (.error diag))
        = { cpv_name := cpv_name, variant := .unknown_error, message := diag,
            elapsed_time := elapsed_time, llm_cost := 0 }) ∧
    (∀ cpv_name elapsed_time post_verify child,
      (run_single_benchmark cpv_name elapsed_time post_verify child).cpv_name = cpv_name) := by
  constructor
  · intro cpv_name elapsed_time post_verify diag
    exact ⟨rfl, rfl, rfl⟩
  · intro cpv_name elapsed_time post_verify child
    unfold run_single_benchmark
    rcases hrun : run_crete_app child with e | r
    · rfl
    · rcases h2 : (if r.variant = Variant.sound then post_verify r else .ok r) with e2 | r2
      · simp [h2]
      · simp [h2, benchmark_result_from_crete]

/-- C2: when the generator returns no diff or an empty diff on the first
attempt, the repair loop records exactly one attempt, with outcome `NoPatch`
and with the evaluator never invoked (the trace is this same singleton for
every evaluator and the attempt's `evaluated` flag is `false`), regardless of
the configured retry ceiling `max_iterations`; the reported action is
`NoPatchAction`. -/
theorem act_empty_diff_single_attempt
    (gen : Nat → String → Option String) (ev : Nat → String → Action)
    (bug_class insights : String) (max_iterations : Nat)
    (hn : 1 ≤ max_iterations)
    (h0 : diff_is_empty (gen 0 (make_prompt bug_class insights "")) = true) :
    (∀ ev2 : Nat → String → Action,
      ccagent_attempts gen ev2 bug_class insights max_iterations =
        [⟨make_prompt bug_class insights "", gen 0 (make_prompt bug_class insights ""),
          Action.noPatchAction, false⟩]) ∧
    ccagent_act gen ev bug_class insights max_iterations = some Action.noPatchAction := by
  have key : ∀ ev2 : Nat → String → Action,
      ccagent_attempts gen ev2 bug_class insights max_iterations =
        [⟨make_prompt bug_class insights "", gen 0 (make_prompt bug_class insights ""),
          Action.noPatchAction, false⟩] := by
    intro ev2
    obtain ⟨m, rfl⟩ : ∃ m, max_iterations = m + 1 := ⟨max_iterations - 1, by omega⟩
    simp [ccagent_attempts, act_loop, h0, is_retry_action]
  refine ⟨key, ?_⟩
  simp [ccagent_act, key ev, choose_best_action]

/-- A generator that never produces a diff. -/
def gen_none : Nat → String → Option String := fun _ _ => none

/-- An evaluator constant (irrelevant where used: those traces never invoke
it). -/
def ev_const : Nat → String → Action := fun _ _ => Action.noPatchAction

/-- C2 witness: with a generator that always returns no diff and retry
ceiling 3, the task runs exactly one `NoPatch` attempt. -/
theorem act_empty_diff_single_attempt_witness :
    ccagent_attempts gen_none ev_const "heap-buffer-overflow" "log" 3 =
      [⟨make_prompt "heap-buffer-overflow" "log" "", none, Action.noPatchAction, false⟩] ∧
    ccagent_act gen_none ev_const "heap-buffer-overflow" "log" 3 = some Action.noPatchAction :=
  ⟨(act_empty_diff_single_attempt gen_none ev_const "heap-buffer-overflow" "log" 3
      (by decide) rfl).1 ev_const,
    (act_empty_diff_single_attempt gen_none ev_const "heap-buffer-overflow" "log" 3
      (by decide) rfl).2⟩

/-- A generator whose underlying agent call raises on every attempt; the
coder catches the exception and yields no diff. -/
def gen_raises : Nat → String → Option String :=
  fun _ _ => cc_coder_run (.error "Error running Claude Agent SDK: boom")

/-- C3 counterexample: with a retry ceiling of 3 (budget remaining) and a
generation call that raises on every attempt, the repair loop does not
continue with further attempts: it stops after the single `NoPatch` attempt,
refuting the claim that the loop continues past a caught generation
exception while budget remains. -/
theorem act_generation_failure_counterexample :
    (ccagent_attempts gen_raises ev_const "bug" "insight" 3).length = 1 ∧
    ¬ 2 ≤ (ccagent_attempts gen_raises ev_const "bug" "insight" 3).length := by
  constructor
  · rfl
  · intro h
    simp [ccagent_attempts, act_loop, gen_raises, cc_coder_run, diff_is_empty,
      is_retry_action] at h

/-- C3 (amended): an exception during generation is caught by the coder and
converted to no diff, and the attempt in which the generator yields no diff
becomes `NoPatch` — but instead of continuing while budget remains, the loop
breaks at that attempt, which is its last. -/
theorem act_generation_failure_stops
    (msg : String) (gen : Nat → String → Option String) (ev : Nat → String → Action)
    (bug_class insights : String) (fuel i : Nat) (failed_patches : String)
    (hf : 1 ≤ fuel)
    (hgen : gen i (make_prompt bug_class insights failed_patches) = none) :
    cc_coder_run (.error msg) = none ∧
    act_loop gen ev bug_class insights fuel i failed_patches =
      [⟨make_prompt bug_class insights failed_patches, none, Action.noPatchAction, false⟩] := by
  obtain ⟨m, rfl⟩ : ∃ m, fuel = m + 1 := ⟨fuel - 1, by omega⟩
  refine ⟨rfl, ?_⟩
  simp [act_loop, hgen, diff_is_empty, is_retry_action]

/-- C3 witness: the amended behavior at a concrete failing generator, with
budget 3 left: the caught exception yields no diff and the loop records the
one `NoPatch` attempt and stops. -/
theorem act_generation_failure_stops_witness :
    cc_coder_run (.error "boom") = none ∧
    act_loop gen_raises ev_const "bug" "insight" 3 0 "" =
      [⟨make_prompt "bug" "insight" "", none, Action.noPatchAction, false⟩] :=
  act_generation_failure_stops "boom" gen_raises ev_const "bug" "insight" 3 0 ""
    (by decide) rfl

theorem ctx_during_frame (ctx : AgentContext) (out : Option String) :
    ∀ i key, key ≠ "output_directory" → ctx_during ctx out i key = ctx key := by
  intro i
  induction i with
  | zero =>
      intro key hk
      cases out with
      | none => rfl
      | some d => simp [ctx_during, ctx_set, hk]
  | succ j ih =>
      intro key hk
      cases out with
      | none => exact ih key hk
      | some d =>
          simp only [ctx_during, ctx_set]
          rw [if_neg hk]
          exact ih key hk

theorem ctx_during_output_directory (ctx : AgentContext) (out : Option String)
    (d : String) (hout : out = some d) :
    ∀ i, ctx_during ctx out i "output_directory" = some (iter_dir d i) := by
  subst hout
  intro i
  cases i with
  | zero => simp [ctx_during, ctx_set]
  | succ j => simp [ctx_during, ctx_set]

/-- C10: after a run of `_iterate_with_output_directory` that consumed any
number of iterations and then finished or was closed, every entry of the
context — the `"output_directory"` entry included — equals its value from
before the loop (absent again if it was absent); while suspended at iteration
`i` with a configured output directory `d`, the `"output_directory"` entry is
the subdirectory `iter_i` of `d`; and no other key is ever modified during
the iterations. -/
theorem iterate_with_output_directory_spec
    (ctx : AgentContext) (out : Option String) (k : Nat) :
    (∀ key, ctx_after_run ctx out k key = ctx key) ∧
    (∀ d i, out = some d →
      ctx_during ctx out i "output_directory" = some (iter_dir d i)) ∧
    (∀ i key, key ≠ "output_directory" → ctx_during ctx out i key = ctx key) := by
  refine ⟨?_, ?_, ?_⟩
  · intro key
    by_cases hk : key = "output_directory"
    · subst hk
      cases k with
      | zero =>
          cases horig : ctx "output_directory" with
          | none => simp [ctx_after_run, ctx_finalize, horig, ctx_pop]
          | some p => simp [ctx_after_run, ctx_finalize, horig, ctx_set]
      | succ j =>
          cases horig : ctx "output_directory" with
          | none => simp [ctx_after_run, ctx_finalize, horig, ctx_pop]
          | some p => simp [ctx_after_run, ctx_finalize, horig, ctx_set]
    · cases k with
      | zero =>
          cases horig : ctx "output_directory" with
          | none => simp [ctx_after_run, ctx_finalize, horig, ctx_pop, hk]
          | some p => simp [ctx_after_run, ctx_finalize, horig, ctx_set, hk]
      | succ j =>
          cases horig : ctx "output_directory" with
          | none =>
              simp only [ctx_after_run, ctx_finalize, horig, ctx_pop]
              rw [if_neg hk]
              exact ctx_during_frame ctx out j key hk
          | some p =>
              simp only [ctx_after_run, ctx_finalize, horig, ctx_set]
              rw [if_neg hk]
              exact ctx_during_frame ctx out j key hk
  · intro d i hout
    exact ctx_during_output_directory ctx out d hout i
  · intro i key hk
    exact ctx_during_frame ctx out i key hk

/-- A concrete agent context: an output directory and one unrelated entry. -/
def ctx_example : AgentContext :=
  fun q =>
    if q = "output_directory" then some "/reports/out"
    else if q = "evaluator" then some "mock-evaluator" else none

/-- C10 witness: for a concrete context that consumed 2 iterations with
output directory `/tmp/run`, the unrelated `"evaluator"` entry is restored
(never touched), iteration 1 saw `/tmp/run/iter_1`, and the
`"output_directory"` entry is restored to its original value. -/
theorem iterate_with_output_directory_spec_witness :
    ctx_after_run ctx_example (some "/tmp/run") 2 "evaluator" = ctx_example "evaluator" ∧
    ctx_during ctx_example (some "/tmp/run") 1 "output_directory" =
      some (iter_dir "/tmp/run" 1) ∧
    ctx_during ctx_example (some "/tmp/run") 1 "evaluator" = ctx_example "evaluator" ∧
    ctx_after_run ctx_example (some "/tmp/run") 2 "output_directory" =
      ctx_example "output_directory" :=
  ⟨(iterate_with_output_directory_spec ctx_example (some "/tmp/run") 2).1 "evaluator",
    (iterate_with_output_directory_spec ctx_example (some "/tmp/run") 2).2.1 "/tmp/run" 1 rfl,
    (iterate_with_output_directory_spec ctx_example (some "/tmp/run") 2).2.2 1 "evaluator"
      (by decide),
    (iterate_with_output_directory_spec ctx_example (some "/tmp/run") 2).1 "output_directory"⟩

/-- The feedback buffer built by repeated
`failed_patches += FAILED_PATCH_TEMPLATE.format(failed_patch=...)`: the
rendered templates of the given diff texts, concatenated in order. -/
def render_failed : List String → String
  | [] => ""
  | d :: ds => failed_patch_template d ++ render_failed ds

/-- The diff text of a recorded attempt. -/
def step_diff_text (s : LoopStep) : String := diff_text s.diff

/-- `contains_in_order s ds`: the strings `ds` occur verbatim in `s`, in
order and without overlap. -/
def contains_in_order : String → List String → Prop
  | _, [] => True
  | s, d :: ds => ∃ u v, s = u ++ d ++ v ∧ contains_in_order v ds

theorem render_failed_append (xs ys : List String) :
    render_failed (xs ++ ys) = render_failed xs ++ render_failed ys := by
  induction xs with
  | nil => simp [render_failed]
  | cons x xs ih => simp [render_failed, ih, String.append_assoc]

theorem render_failed_ne_empty (d : String) (ds : List String) :
    render_failed (d :: ds) ≠ "" := by
  intro h
  have hlen := congrArg String.length h
  simp only [render_failed, failed_patch_template, String.length_append] at hlen
  have h8 : ("```diff\n" : String).length = 8 := by decide
  have h4 : ("\n```" : String).length = 4 := by decide
  have h0 : ("" : String).length = 0 := by decide
  rw [h8, h4, h0] at hlen
  omega

theorem contains_in_order_render (ds : List String) :
    ∀ u w : String, contains_in_order (u ++ render_failed ds ++ w) ds := by
  induction ds with
  | nil => intro u w; trivial
  | cons d ds ih =>
      intro u w
      refine ⟨u ++ "```diff\n", "\n```" ++ render_failed ds ++ w, ?_, ?_⟩
      · simp [render_failed, failed_patch_template, String.append_assoc]
      · exact ih "\n```" w

theorem contains_in_order_feedback (bug_class insights : String) (ds : List String) :
    contains_in_order
      (cc_user_prompt_template_with_feedback bug_class insights (render_failed ds)) ds := by
  have h := contains_in_order_render ds
    ("I tried to fix a " ++ bug_class ++
      " vulnerability causing the crash log in the <crash_log> below.\nI failed to fix the vulnerability with the following patches:\n\n")
    ("\n\nExplain why the patches failed and provide a new patch to fix the vulnerability.\nDo not repeat the same mistakes in the new patch.\nTry a completely different approach to fix the vulnerability.\nNEVER fix files outside the source directory.\nNEVER do any git operations in or outside the source directory.\n\n" ++
      insights)
  have heq : cc_user_prompt_template_with_feedback bug_class insights (render_failed ds) =
      ("I tried to fix a " ++ bug_class ++
        " vulnerability causing the crash log in the <crash_log> below.\nI failed to fix the vulnerability with the following patches:\n\n") ++
        render_failed ds ++
        ("\n\nExplain why the patches failed and provide a new patch to fix the vulnerability.\nDo not repeat the same mistakes in the new patch.\nTry a completely different approach to fix the vulnerability.\nNEVER fix files outside the source directory.\nNEVER do any git operations in or outside the source directory.\n\n" ++
          insights) := by
    simp [cc_user_prompt_template_with_feedback, String.append_assoc]
  rw [heq]
  exact h

/-- Every step of an `act_loop` trace that is followed by another step is a
retry-classified attempt (the loop breaks after any other action). -/
theorem act_loop_prefix_retry (gen : Nat → String → Option String)
    (ev : Nat → String → Action) (bug_class insights : String) :
    ∀ (fuel i : Nat) (fp : String) (pre : List LoopStep) (s : LoopStep) (post : List LoopStep),
      act_loop gen ev bug_class insights fuel i fp = pre ++ s :: post →
      ∀ s2 ∈ pre, is_retry_action s2.action = true := by
  intro fuel
  induction fuel with
  | zero =>
      intro i fp pre s post h
      simp [act_loop] at h
  | succ m ih =>
      intro i fp pre s post h s2 hs2
      rw [act_loop] at h
      by_cases hr :
          is_retry_action
            (if diff_is_empty (gen i (make_prompt bug_class insights fp)) then
              Action.noPatchAction
            else ev i (diff_text (gen i (make_prompt bug_class insights fp)))) = true
      · rw [if_pos hr] at h
        match pre, hs2 with
        | p :: pre2, hs2 =>
            have hc := List.cons_eq_cons.mp h.symm
            rcases List.mem_cons.mp hs2 with h2 | h2
            · rw [h2, hc.1]
              exact hr
            · exact ih (i + 1) _ pre2 s post hc.2.symm s2 h2
      · rw [if_neg hr] at h
        match pre, hs2 with
        | p :: pre2, hs2 =>
            have hc := List.cons_eq_cons.mp h.symm
            exact absurd hc.2 (List.append_ne_nil_of_right_ne_nil pre2 (by simp))

/-- The prompt of every step of an `act_loop` trace is `make_prompt` applied
to the feedback buffer accumulated from the diffs of all earlier steps of the
trace. -/
theorem act_loop_prompt (gen : Nat → String → Option String)
    (ev : Nat → String → Action) (bug_class insights : String) :
    ∀ (fuel i : Nat) (fp : String) (pre : List LoopStep) (s : LoopStep) (post : List LoopStep),
      act_loop gen ev bug_class insights fuel i fp = pre ++ s :: post →
      s.prompt = make_prompt bug_class insights (fp ++ render_failed (pre.map step_diff_text)) := by
  intro fuel
  induction fuel with
  | zero =>
      intro i fp pre s post h
      simp [act_loop] at h
  | succ m ih =>
      intro i fp pre s post h
      rw [act_loop] at h
      by_cases hr :
          is_retry_action
            (if diff_is_empty (gen i (make_prompt bug_class insights fp)) then
              Action.noPatchAction
            else ev i (diff_text (gen i (make_prompt bug_class insights fp)))) = true
      · rw [if_pos hr] at h
        match pre with
        | [] =>
            have hs := (List.cons_eq_cons.mp h.symm).1
            rw [hs]
            simp [render_failed, String.append_empty]
        | p :: pre2 =>
            have hc := List.cons_eq_cons.mp h.symm
            have htail := ih (i + 1)
              (fp ++ failed_patch_template
                (diff_text (gen i (make_prompt bug_class insights fp))))
              pre2 s post hc.2.symm
            have hp : step_diff_text p =
                diff_text (gen i (make_prompt bug_class insights fp)) := by
              rw [hc.1]
              rfl
            rw [htail, List.map_cons, render_failed, hp, String.append_assoc]
      · rw [if_neg hr] at h
        match pre with
        | [] =>
            have hs := (List.cons_eq_cons.mp h.symm).1
            rw [hs]
            simp [render_failed, String.append_empty]
        | p :: pre2 =>
            have hc := List.cons_eq_cons.mp h.symm
            exact absurd hc.2 (List.append_ne_nil_of_right_ne_nil pre2 (by simp))

theorem retry_not_sound (a : Action) (h : is_retry_action a = true) :
    a.variant ≠ Variant.sound := by
  cases a <;> simp_all [is_retry_action, Action.variant]

/-- C4: at every attempt after the first — decompose the task's attempt trace
as `pre ++ s :: post` with `pre` the (non-empty) earlier attempts — the
prompt passed to the generator is the feedback template carrying the rendered
diffs of all earlier attempts concatenated in attempt order; it contains each
earlier attempt's literal diff text, in order; and every earlier attempt is
retry-classified (`Vulnerable`, `Compilable`, `Uncompilable` or `Wrong`) —
in particular never `Sound`, so no diff of a `Sound` attempt appears. As this
holds of every decomposition, attempt `n` sees every failed diff of attempts
`1..n-1`: feedback accumulates monotonically. -/
theorem ccagent_feedback_accumulation
    (gen : Nat → String → Option String) (ev : Nat → String → Action)
    (bug_class insights : String) (max_iterations : Nat)
    (pre : List LoopStep) (s : LoopStep) (post : List LoopStep)
    (hdec : ccagent_attempts gen ev bug_class insights max_iterations = pre ++ s :: post)
    (hpre : pre ≠ []) :
    s.prompt = cc_user_prompt_template_with_feedback bug_class insights
        (render_failed (pre.map step_diff_text)) ∧
    contains_in_order s.prompt (pre.map step_diff_text) ∧
    (∀ s2 ∈ pre, is_retry_action s2.action = true) ∧
    (∀ s2 ∈ pre, s2.action.variant ≠ Variant.sound) := by
  have hprompt := act_loop_prompt gen ev bug_class insights max_iterations 0 "" pre s post hdec
  have hretry := act_loop_prefix_retry gen ev bug_class insights max_iterations 0 "" pre s post hdec
  have hne : render_failed (pre.map step_diff_text) ≠ "" := by
    match pre, hpre with
    | p :: pre2, _ => exact render_failed_ne_empty _ _
  rw [String.empty_append] at hprompt
  have hprompt2 : s.prompt = cc_user_prompt_template_with_feedback bug_class insights
      (render_failed (pre.map step_diff_text)) := by
    rw [hprompt]
    unfold make_prompt
    rw [if_neg hne]
  refine ⟨hprompt2, ?_, hretry, ?_⟩
  · rw [hprompt2]
    exact contains_in_order_feedback bug_class insights (pre.map step_diff_text)
  · intro s2 hs2
    exact retry_not_sound s2.action (hretry s2 hs2)

/-- A generator producing the same non-empty diff on every attempt. -/
def gen_w : Nat → String → Option String := fun _ _ => some "+fix line"

/-- An evaluator classifying attempt 0 as `Wrong` and later attempts as
`Sound`. -/
def ev_w : Nat → String → Action :=
  fun i d => if i = 0 then Action.wrongDiffAction d else Action.soundDiffAction d

/-- The first attempt of the concrete `gen_w`/`ev_w` task. -/
def step0_w : LoopStep :=
  ⟨make_prompt "uaf" "log" "", some "+fix line", Action.wrongDiffAction "+fix line", true⟩

/-- The second attempt of the concrete `gen_w`/`ev_w` task. -/
def step1_w : LoopStep :=
  ⟨make_prompt "uaf" "log" ("" ++ failed_patch_template "+fix line"), some "+fix line",
    Action.soundDiffAction "+fix line", true⟩

/-- C4 witness: in the concrete two-attempt task the second attempt's prompt
is the feedback template over the first attempt's rendered diff, contains the
first diff verbatim, and the first attempt is a retry-classified (non-sound)
attempt. -/
theorem ccagent_feedback_accumulation_witness :
    step1_w.prompt = cc_user_prompt_template_with_feedback "uaf" "log"
        (render_failed ([step0_w].map step_diff_text)) ∧
    contains_in_order step1_w.prompt ([step0_w].map step_diff_text) ∧
    is_retry_action step0_w.action = true ∧
    step0_w.action.variant ≠ Variant.sound :=
  have h := ccagent_feedback_accumulation gen_w ev_w "uaf" "log" 2 [step0_w] step1_w []
    (by rfl) (by simp)
  ⟨h.1, h.2.1, h.2.2.1 step0_w (List.mem_cons_self step0_w []),
    h.2.2.2 step0_w (List.mem_cons_self step0_w [])⟩

end Crete
